import Mathlib

/-!
Verification of the `claims` crate's `assert_err_eq!` / `debug_assert_err_eq!`
macros (src/assert_err_eq.rs) against their natural-language specification.

The macros are embedded shallowly: the outcome of a macro invocation is either
a returned value or a panic carrying the panic message.  Generic parameters
(`T`, `E`), the `PartialEq` comparison and the `Debug` formatting of the
payload types are modelled by explicit function parameters (`eq`, `fmtT`,
`fmtE`).
-/

namespace RustClaims

/-- Rust's `core::result::Result<T, E>` type, which the macros match on. -/
inductive RustResult (T E : Type) where
  | Ok : T → RustResult T E
  | Err : E → RustResult T E
  deriving DecidableEq, Repr

/-- The result of evaluating a macro invocation: either the expression's value,
or a panic carrying the formatted panic message. -/
inductive Outcome (α : Type) where
  | ret : α → Outcome α
  | panicked : String → Outcome α
  deriving DecidableEq, Repr

/-- The Rust `Debug` rendering of a `Result` value (as produced by the standard
derive): `Ok(v)` or `Err(e)`, with the payload rendered by the supplied
formatting functions. -/
def fmtResult {T E : Type} (fmtT : T → String) (fmtE : E → String) :
    RustResult T E → String
  | RustResult.Ok t => "Ok(" ++ fmtT t ++ ")"
  | RustResult.Err e => "Err(" ++ fmtE e ++ ")"

/-- Models the equality-mismatch report of the Rust standard library's
`assert_eq!` macro (external to this crate): it mentions the renderings of
both compared values. -/
def assertEqPanicMsg (l r : String) : String :=
  "assertion `left == right` failed\n  left: " ++ l ++ "\n right: " ++ r

/-- Models the equality-mismatch report of the Rust standard library's
`assert_eq!` macro when a custom formatted message is supplied: the standard
report together with the custom message. -/
def assertEqPanicMsgWith (l r msg : String) : String :=
  "assertion `left == right` failed: " ++ msg ++ "\n  left: " ++ l ++ "\n right: " ++ r

/-- Models the Rust standard library's `assert_eq!(left, right)` (external to
this crate): returns unit when the values compare equal, otherwise panics with
the standard equality-mismatch report. -/
def std_assert_eq {E : Type} (eq : E → E → Bool) (fmtE : E → String)
    (l r : E) : Outcome Unit :=
  if eq l r then Outcome.ret () else Outcome.panicked (assertEqPanicMsg (fmtE l) (fmtE r))

/-- Models the Rust standard library's `assert_eq!(left, right, fmt, args...)`
(external to this crate): like `std_assert_eq`, but the panic report includes
the caller's formatted message. -/
def std_assert_eq_with {E : Type} (eq : E → E → Bool) (fmtE : E → String)
    (l r : E) (msg : String) : Outcome Unit :=
  if eq l r then Outcome.ret () else
    Outcome.panicked (assertEqPanicMsgWith (fmtE l) (fmtE r) msg)

/-- `listContainsAt sub s`: `sub` is a leading segment of `s`. -/
def listContainsAt : List Char → List Char → Bool
  | [], _ => true
  | _ :: _, [] => false
  | a :: as, b :: bs => a == b && listContainsAt as bs

/-- `listContainsSub sub s`: `sub` occurs as a contiguous segment of `s`. -/
def listContainsSub (sub : List Char) : List Char → Bool
  | [] => listContainsAt sub []
  | b :: bs => listContainsAt sub (b :: bs) || listContainsSub sub bs

/-- `strContainsSub s sub`: the string `sub` occurs as a contiguous substring
of the string `s`.  Used to state the "abort message contains ..." clauses of
the specification. -/
def strContainsSub (s sub : String) : Bool :=
  listContainsSub sub.data s.data

theorem strData_append (a b : String) : (a ++ b).data = a.data ++ b.data := rfl

theorem listContainsAt_append (sub suf : List Char) :
    listContainsAt sub (sub ++ suf) = true := by
  induction sub with
  | nil => rfl
  | cons a as ih => simp [listContainsAt, ih]

theorem listContainsSub_self (sub suf : List Char) :
    listContainsSub sub (sub ++ suf) = true := by
  cases sub with
  | nil =>
    cases suf with
    | nil => rfl
    | cons b bs => simp [listContainsSub, listContainsAt]
  | cons a as =>
    have h := listContainsAt_append (a :: as) suf
    simp only [List.cons_append] at h ⊢
    simp [listContainsSub, h]

theorem listContainsSub_refl (sub : List Char) :
    listContainsSub sub sub = true := by
  simpa using listContainsSub_self sub []

theorem listContainsSub_append_left (a : List Char) {sub s : List Char}
    (h : listContainsSub sub s = true) :
    listContainsSub sub (a ++ s) = true := by
  induction a with
  | nil => simpa using h
  | cons b bs ih =>
    simp only [List.cons_append]
    simp [listContainsSub, ih]

/- ## The macro expansions (src/assert_err_eq.rs) -/

/-- Embedding of the two-argument arm of `assert_err_eq!` in the
`cfg(rustc_1_11)` expansion (src/assert_err_eq.rs lines 60–70):
```
match $cond {
    Err(t) => { assert_eq!(t, $expected); t },
    ok @ Ok(..) => { panic!("assertion failed, expected Err(..), got ...", ok); }
}
``` -/
def assert_err_eq_two_v111 {T E : Type} (eq : E → E → Bool)
    (fmtT : T → String) (fmtE : E → String)
    (cond : RustResult T E) (expected : E) : Outcome E :=
  match cond with
  | RustResult.Err t =>
    match std_assert_eq eq fmtE t expected with
    | Outcome.ret _ => Outcome.ret t
    | Outcome.panicked m => Outcome.panicked m
  | RustResult.Ok t =>
    Outcome.panicked
      ("assertion failed, expected Err(..), got " ++ fmtResult fmtT fmtE (RustResult.Ok t))

/-- Embedding of the two-argument arm of `assert_err_eq!` in the
`cfg(not(rustc_1_11))` expansion (src/assert_err_eq.rs lines 90–100); the
source text of this arm is identical to the `cfg(rustc_1_11)` one. -/
def assert_err_eq_two_pre111 {T E : Type} (eq : E → E → Bool)
    (fmtT : T → String) (fmtE : E → String)
    (cond : RustResult T E) (expected : E) : Outcome E :=
  match cond with
  | RustResult.Err t =>
    match std_assert_eq eq fmtE t expected with
    | Outcome.ret _ => Outcome.ret t
    | Outcome.panicked m => Outcome.panicked m
  | RustResult.Ok t =>
    Outcome.panicked
      ("assertion failed, expected Err(..), got " ++ fmtResult fmtT fmtE (RustResult.Ok t))

/-- Embedding of the trailing-comma arm of `assert_err_eq!` in the
`cfg(rustc_1_11)` expansion (src/assert_err_eq.rs lines 57–59): it delegates
to the two-argument arm. -/
def assert_err_eq_trailing_v111 {T E : Type} (eq : E → E → Bool)
    (fmtT : T → String) (fmtE : E → String)
    (cond : RustResult T E) (expected : E) : Outcome E :=
  assert_err_eq_two_v111 eq fmtT fmtE cond expected

/-- Embedding of the trailing-comma arm of `assert_err_eq!` in the
`cfg(not(rustc_1_11))` expansion (src/assert_err_eq.rs lines 87–89). -/
def assert_err_eq_trailing_pre111 {T E : Type} (eq : E → E → Bool)
    (fmtT : T → String) (fmtE : E → String)
    (cond : RustResult T E) (expected : E) : Outcome E :=
  assert_err_eq_two_pre111 eq fmtT fmtE cond expected

/-- Embedding of the custom-message arm of `assert_err_eq!` in the
`cfg(rustc_1_11)` expansion (src/assert_err_eq.rs lines 71–81):
```
match $cond {
    Err(t) => { assert_eq!(t, $expected, $($arg)+); t },
    ok @ Ok(..) => { panic!("assertion failed, expected Err(..), got ...: ...",
                            ok, format_args!($($arg)+)); }
}
```
The already-formatted `format_args!($($arg)+)` is modelled by `msg`. -/
def assert_err_eq_msg_v111 {T E : Type} (eq : E → E → Bool)
    (fmtT : T → String) (fmtE : E → String)
    (cond : RustResult T E) (expected : E) (msg : String) : Outcome E :=
  match cond with
  | RustResult.Err t =>
    match std_assert_eq_with eq fmtE t expected msg with
    | Outcome.ret _ => Outcome.ret t
    | Outcome.panicked m => Outcome.panicked m
  | RustResult.Ok t =>
    Outcome.panicked
      ("assertion failed, expected Err(..), got " ++ fmtResult fmtT fmtE (RustResult.Ok t)
        ++ ": " ++ msg)

/-- Embedding of the custom-message arm of `assert_err_eq!` in the
`cfg(not(rustc_1_11))` expansion (src/assert_err_eq.rs lines 101–111): on the
`Err` path it calls the plain `assert_eq!(t, $expected)` — the custom format
arguments are not forwarded — while the `Ok` path does include the formatted
custom message in its panic. -/
def assert_err_eq_msg_pre111 {T E : Type} (eq : E → E → Bool)
    (fmtT : T → String) (fmtE : E → String)
    (cond : RustResult T E) (expected : E) (msg : String) : Outcome E :=
  match cond with
  | RustResult.Err t =>
    match std_assert_eq eq fmtE t expected with
    | Outcome.ret _ => Outcome.ret t
    | Outcome.panicked m => Outcome.panicked m
  | RustResult.Ok t =>
    Outcome.panicked
      ("assertion failed, expected Err(..), got " ++ fmtResult fmtT fmtE (RustResult.Ok t)
        ++ ": " ++ msg)

/-- Forgetting a macro outcome's value while keeping its panic behaviour: the
effect of the expression statement `$crate::assert_err_eq!($($arg)*);` inside
a block, whose value is unit. -/
def discardValue {E : Type} : Outcome E → Outcome Unit
  | Outcome.ret _ => Outcome.ret ()
  | Outcome.panicked m => Outcome.panicked m

/-- Embedding of `debug_assert_err_eq!` (src/assert_err_eq.rs lines 128–130):
```
($($arg:tt)*) => (if cfg!(debug_assertions) { $crate::assert_err_eq!($($arg)*); })
```
`debugAssertions` is the `cfg!(debug_assertions)` build flag; `inner` is the
outcome of the forwarded `assert_err_eq!($($arg)*)` invocation (any argument
form).  When the flag is set, the inner assertion runs and its value is
discarded by the expression statement, the whole `if` evaluating to unit; when
it is not set, nothing runs and the `if` evaluates to unit. -/
def debug_assert_err_eq {E : Type} (debugAssertions : Bool)
    (inner : Outcome E) : Outcome Unit :=
  if debugAssertions then discardValue inner else Outcome.ret ()

/- ## General helper lemmas about substring occurrence -/

theorem strExt {a b : String} (h : a.data = b.data) : a = b := by
  cases a; cases b; cases h; rfl

theorem strAppend_assoc (a b c : String) : a ++ b ++ c = a ++ (b ++ c) := by
  apply strExt
  simp [strData_append, List.append_assoc]

theorem strContainsSub_split (a sub b : String) :
    strContainsSub (a ++ (sub ++ b)) sub = true := by
  show listContainsSub sub.data (a ++ (sub ++ b)).data = true
  rw [strData_append, strData_append]
  exact listContainsSub_append_left a.data (listContainsSub_self sub.data b.data)

theorem strContainsSub_split_right (a sub : String) :
    strContainsSub (a ++ sub) sub = true := by
  show listContainsSub sub.data (a ++ sub).data = true
  rw [strData_append]
  exact listContainsSub_append_left a.data (listContainsSub_refl sub.data)

/- ## Claims -/

/-- C1: for every outcome `Err e` and expected value `x` with `e == x`, both
conditional-compilation expansions of `assert_err_eq!` evaluate to the failure
payload `e` (no panic). -/
theorem C1_err_eq_returns_payload {T E : Type} (eq : E → E → Bool)
    (fmtT : T → String) (fmtE : E → String) (e x : E) (h : eq e x = true) :
    assert_err_eq_two_v111 eq fmtT fmtE (RustResult.Err e) x = Outcome.ret e ∧
    assert_err_eq_two_pre111 eq fmtT fmtE (RustResult.Err e) x = Outcome.ret e := by
  constructor <;>
    simp [assert_err_eq_two_v111, assert_err_eq_two_pre111, std_assert_eq, h]

/-- Witness for C1 at `Err 1`, expected `1` over `Result<(), Nat>`. -/
theorem C1_witness :
    assert_err_eq_two_v111 (fun a b : Nat => a == b) (fun _ : Unit => "()")
      (fun n : Nat => toString n) (RustResult.Err 1) 1 = Outcome.ret 1 ∧
    assert_err_eq_two_pre111 (fun a b : Nat => a == b) (fun _ : Unit => "()")
      (fun n : Nat => toString n) (RustResult.Err 1) 1 = Outcome.ret 1 :=
  C1_err_eq_returns_payload (fun a b : Nat => a == b) (fun _ : Unit => "()")
    (fun n : Nat => toString n) 1 1 (by decide)

/-- C2: for every outcome `Ok v` and any expected value, both expansions of
`assert_err_eq!` panic, and the panic message contains `"expected Err(..)"`
and the debug rendering of `v`. -/
theorem C2_ok_always_panics {T E : Type} (eq : E → E → Bool)
    (fmtT : T → String) (fmtE : E → String) (v : T) (x : E) :
    assert_err_eq_two_v111 eq fmtT fmtE (RustResult.Ok v) x =
      Outcome.panicked
        ("assertion failed, expected Err(..), got " ++ fmtResult fmtT fmtE (RustResult.Ok v)) ∧
    assert_err_eq_two_pre111 eq fmtT fmtE (RustResult.Ok v) x =
      Outcome.panicked
        ("assertion failed, expected Err(..), got " ++ fmtResult fmtT fmtE (RustResult.Ok v)) ∧
    strContainsSub
      ("assertion failed, expected Err(..), got " ++ fmtResult fmtT fmtE (RustResult.Ok v))
      "expected Err(..)" = true ∧
    strContainsSub
      ("assertion failed, expected Err(..), got " ++ fmtResult fmtT fmtE (RustResult.Ok v))
      (fmtT v) = true := by
  refine ⟨rfl, rfl, ?_, ?_⟩
  · have hlit : ("assertion failed, expected Err(..), got " : String) =
        "assertion failed, " ++ ("expected Err(..)" ++ ", got ") := by decide
    rw [hlit, strAppend_assoc, strAppend_assoc]
    exact strContainsSub_split "assertion failed, " "expected Err(..)"
      (", got " ++ fmtResult fmtT fmtE (RustResult.Ok v))
  · show strContainsSub
      ("assertion failed, expected Err(..), got " ++ ("Ok(" ++ fmtT v ++ ")")) (fmtT v) = true
    rw [← strAppend_assoc, ← strAppend_assoc, strAppend_assoc]
    exact strContainsSub_split ("assertion failed, expected Err(..), got " ++ "Ok(")
      (fmtT v) ")"

/-- C3: for every outcome `Err e` and expected value `x` with `e != x`, both
expansions of `assert_err_eq!` panic with the standard equality-mismatch
report of `assert_eq!`, which mentions the renderings of both `e` and `x`;
moreover the only non-panicking outcome of the macro, for any outcome value,
is the successfully matched failure payload. -/
theorem C3_err_mismatch_panics {T E : Type} (eq : E → E → Bool)
    (fmtT : T → String) (fmtE : E → String) (e x : E) (h : eq e x = false) :
    assert_err_eq_two_v111 eq fmtT fmtE (RustResult.Err e) x =
      Outcome.panicked (assertEqPanicMsg (fmtE e) (fmtE x)) ∧
    assert_err_eq_two_pre111 eq fmtT fmtE (RustResult.Err e) x =
      Outcome.panicked (assertEqPanicMsg (fmtE e) (fmtE x)) ∧
    strContainsSub (assertEqPanicMsg (fmtE e) (fmtE x)) (fmtE e) = true ∧
    strContainsSub (assertEqPanicMsg (fmtE e) (fmtE x)) (fmtE x) = true ∧
    (∀ (cond : RustResult T E) (r : E),
      assert_err_eq_two_v111 eq fmtT fmtE cond x = Outcome.ret r →
        cond = RustResult.Err r ∧ eq r x = true) ∧
    (∀ (cond : RustResult T E) (r : E),
      assert_err_eq_two_pre111 eq fmtT fmtE cond x = Outcome.ret r →
        cond = RustResult.Err r ∧ eq r x = true) := by
  refine ⟨?_, ?_, ?_, ?_, ?_, ?_⟩
  · simp [assert_err_eq_two_v111, std_assert_eq, h]
  · simp [assert_err_eq_two_pre111, std_assert_eq, h]
  · show strContainsSub
      ("assertion `left == right` failed\n  left: " ++ fmtE e ++ "\n right: " ++ fmtE x)
      (fmtE e) = true
    rw [strAppend_assoc, strAppend_assoc]
    exact strContainsSub_split "assertion `left == right` failed\n  left: " (fmtE e)
      ("\n right: " ++ fmtE x)
  · show strContainsSub
      ("assertion `left == right` failed\n  left: " ++ fmtE e ++ "\n right: " ++ fmtE x)
      (fmtE x) = true
    exact strContainsSub_split_right
      ("assertion `left == right` failed\n  left: " ++ fmtE e ++ "\n right: ") (fmtE x)
  · intro cond r hc
    cases cond with
    | Ok t => simp [assert_err_eq_two_v111] at hc
    | Err t =>
      cases he : eq t x with
      | true =>
        simp [assert_err_eq_two_v111, std_assert_eq, he] at hc
        subst hc
        exact ⟨rfl, he⟩
      | false =>
        simp [assert_err_eq_two_v111, std_assert_eq, he] at hc
  · intro cond r hc
    cases cond with
    | Ok t => simp [assert_err_eq_two_pre111] at hc
    | Err t =>
      cases he : eq t x with
      | true =>
        simp [assert_err_eq_two_pre111, std_assert_eq, he] at hc
        subst hc
        exact ⟨rfl, he⟩
      | false =>
        simp [assert_err_eq_two_pre111, std_assert_eq, he] at hc

/-- Witness for C3 at `Err 1`, expected `2` over `Result<(), Nat>`, together
with one instance of its non-panic characterization at `Err 2`. -/
theorem C3_witness :
    (assert_err_eq_two_v111 (fun a b : Nat => a == b) (fun _ : Unit => "()")
      (fun n : Nat => toString n) (RustResult.Err 1) 2 =
      Outcome.panicked (assertEqPanicMsg (toString (1 : Nat)) (toString (2 : Nat)))) ∧
    (RustResult.Err 2 = (RustResult.Err 2 : RustResult Unit Nat) ∧
      ((fun a b : Nat => a == b) 2 2) = true) := by
  have h := C3_err_mismatch_panics (fun a b : Nat => a == b) (fun _ : Unit => "()")
    (fun n : Nat => toString n) 1 2 (by decide)
  exact ⟨h.1, h.2.2.2.2.1 (RustResult.Err 2) 2 (by decide)⟩

/-- C4 counterexample: in the `cfg(not(rustc_1_11))` expansion, at
`Err 1`, expected `2`, custom message `"foo"`, the panic message is the plain
equality-mismatch report and does not contain `"foo"` — the claim's clause
"under either conditional-compilation variant" fails. -/
theorem C4_counterexample :
    assert_err_eq_msg_pre111 (fun a b : Nat => a == b) (fun _ : Unit => "()")
      (fun n : Nat => toString n) (RustResult.Err 1) 2 "foo" =
      Outcome.panicked (assertEqPanicMsg "1" "2") ∧
    strContainsSub (assertEqPanicMsg "1" "2") "foo" = false := by
  constructor
  · rfl
  · decide

/-- C4 (amended): when the outcome is `Err e` with `e != x` and a custom
message is supplied, the `cfg(rustc_1_11)` expansion panics with a message
containing the custom message, while the `cfg(not(rustc_1_11))` expansion
panics with the plain equality-mismatch report, discarding the custom
message. -/
theorem C4_custom_msg_on_mismatch {T E : Type} (eq : E → E → Bool)
    (fmtT : T → String) (fmtE : E → String) (e x : E) (msg : String)
    (h : eq e x = false) :
    assert_err_eq_msg_v111 eq fmtT fmtE (RustResult.Err e) x msg =
      Outcome.panicked (assertEqPanicMsgWith (fmtE e) (fmtE x) msg) ∧
    strContainsSub (assertEqPanicMsgWith (fmtE e) (fmtE x) msg) msg = true ∧
    assert_err_eq_msg_pre111 eq fmtT fmtE (RustResult.Err e) x msg =
      Outcome.panicked (assertEqPanicMsg (fmtE e) (fmtE x)) := by
  refine ⟨?_, ?_, ?_⟩
  · simp [assert_err_eq_msg_v111, std_assert_eq_with, h]
  · show strContainsSub
      ("assertion `left == right` failed: " ++ msg ++ "\n  left: " ++ fmtE e
        ++ "\n right: " ++ fmtE x) msg = true
    rw [strAppend_assoc, strAppend_assoc, strAppend_assoc, strAppend_assoc]
    exact strContainsSub_split "assertion `left == right` failed: " msg
      ("\n  left: " ++ (fmtE e ++ ("\n right: " ++ fmtE x)))
  · simp [assert_err_eq_msg_pre111, std_assert_eq, h]

/-- Witness for the amended C4 at `Err 1`, expected `2`, message `"foo"`. -/
theorem C4_witness :
    assert_err_eq_msg_v111 (fun a b : Nat => a == b) (fun _ : Unit => "()")
      (fun n : Nat => toString n) (RustResult.Err 1) 2 "foo" =
      Outcome.panicked (assertEqPanicMsgWith (toString (1 : Nat)) (toString (2 : Nat)) "foo") ∧
    strContainsSub
      (assertEqPanicMsgWith (toString (1 : Nat)) (toString (2 : Nat)) "foo") "foo" = true ∧
    assert_err_eq_msg_pre111 (fun a b : Nat => a == b) (fun _ : Unit => "()")
      (fun n : Nat => toString n) (RustResult.Err 1) 2 "foo" =
      Outcome.panicked (assertEqPanicMsg (toString (1 : Nat)) (toString (2 : Nat))) :=
  C4_custom_msg_on_mismatch (fun a b : Nat => a == b) (fun _ : Unit => "()")
    (fun n : Nat => toString n) 1 2 "foo" (by decide)

/-- C5: the `cfg(not(rustc_1_11))` custom-message expansion performs the plain
equality check on the `Err` path — its behaviour there equals the two-argument
form, the custom message being discarded — while its `Ok` path includes the
custom message in the panic; in the `cfg(rustc_1_11)` expansion both paths
include the custom message. -/
theorem C5_pre111_discards_msg_on_err_path {T E : Type} (eq : E → E → Bool)
    (fmtT : T → String) (fmtE : E → String) :
    (∀ (e x : E) (msg : String),
      assert_err_eq_msg_pre111 eq fmtT fmtE (RustResult.Err e) x msg =
        assert_err_eq_two_pre111 eq fmtT fmtE (RustResult.Err e) x) ∧
    (∀ (t : T) (x : E) (msg : String),
      assert_err_eq_msg_pre111 eq fmtT fmtE (RustResult.Ok t) x msg =
        Outcome.panicked
          ("assertion failed, expected Err(..), got "
            ++ fmtResult fmtT fmtE (RustResult.Ok t) ++ ": " ++ msg) ∧
      strContainsSub
        ("assertion failed, expected Err(..), got "
          ++ fmtResult fmtT fmtE (RustResult.Ok t) ++ ": " ++ msg) msg = true) ∧
    (∀ (e x : E) (msg : String), eq e x = false →
      assert_err_eq_msg_v111 eq fmtT fmtE (RustResult.Err e) x msg =
        Outcome.panicked (assertEqPanicMsgWith (fmtE e) (fmtE x) msg) ∧
      strContainsSub (assertEqPanicMsgWith (fmtE e) (fmtE x) msg) msg = true) ∧
    (∀ (t : T) (x : E) (msg : String),
      assert_err_eq_msg_v111 eq fmtT fmtE (RustResult.Ok t) x msg =
        Outcome.panicked
          ("assertion failed, expected Err(..), got "
            ++ fmtResult fmtT fmtE (RustResult.Ok t) ++ ": " ++ msg) ∧
      strContainsSub
        ("assertion failed, expected Err(..), got "
          ++ fmtResult fmtT fmtE (RustResult.Ok t) ++ ": " ++ msg) msg = true) := by
  refine ⟨fun e x msg => rfl, fun t x msg => ⟨rfl, ?_⟩, fun e x msg h => ⟨?_, ?_⟩,
    fun t x msg => ⟨rfl, ?_⟩⟩
  · exact strContainsSub_split_right
      ("assertion failed, expected Err(..), got "
        ++ fmtResult fmtT fmtE (RustResult.Ok t) ++ ": ") msg
  · simp [assert_err_eq_msg_v111, std_assert_eq_with, h]
  · show strContainsSub
      ("assertion `left == right` failed: " ++ msg ++ "\n  left: " ++ fmtE e
        ++ "\n right: " ++ fmtE x) msg = true
    rw [strAppend_assoc, strAppend_assoc, strAppend_assoc, strAppend_assoc]
    exact strContainsSub_split "assertion `left == right` failed: " msg
      ("\n  left: " ++ (fmtE e ++ ("\n right: " ++ fmtE x)))
  · exact strContainsSub_split_right
      ("assertion failed, expected Err(..), got "
        ++ fmtResult fmtT fmtE (RustResult.Ok t) ++ ": ") msg

/-- Witness for C5: at `Err 1`, expected `2`, message `"foo"`, the
`cfg(not(rustc_1_11))` expansion behaves as the plain two-argument form, and
the `cfg(rustc_1_11)` expansion's panic message contains `"foo"`. -/
theorem C5_witness :
    assert_err_eq_msg_pre111 (fun a b : Nat => a == b) (fun _ : Unit => "()")
      (fun n : Nat => toString n) (RustResult.Err 1) 2 "foo" =
      assert_err_eq_two_pre111 (fun a b : Nat => a == b) (fun _ : Unit => "()")
        (fun n : Nat => toString n) (RustResult.Err 1) 2 ∧
    strContainsSub
      (assertEqPanicMsgWith (toString (1 : Nat)) (toString (2 : Nat)) "foo") "foo" = true := by
  have h := C5_pre111_discards_msg_on_err_path (fun a b : Nat => a == b)
    (fun _ : Unit => "()") (fun n : Nat => toString n)
  exact ⟨h.1 1 2 "foo", (h.2.2.1 1 2 "foo" (by decide)).2⟩

/-- C6 counterexample: at outcome `Err 1`, expected `1`, `assert_err_eq!`
evaluates to the payload `1`, but `debug_assert_err_eq!` under
`cfg!(debug_assertions)` evaluates to unit — the payload is discarded by the
expression statement inside the `if` block, so the debug variant does not
yield the matched failure payload as its value. -/
theorem C6_counterexample :
    assert_err_eq_two_v111 (fun a b : Nat => a == b) (fun _ : Unit => "()")
      (fun n : Nat => toString n) (RustResult.Err 1) 1 = Outcome.ret 1 ∧
    debug_assert_err_eq true
      (assert_err_eq_two_v111 (fun a b : Nat => a == b) (fun _ : Unit => "()")
        (fun n : Nat => toString n) (RustResult.Err 1) 1) = Outcome.ret () := by
  exact ⟨rfl, rfl⟩

/-- C6 (amended): under a debug build configuration,
`debug_assert_err_eq!` runs the forwarded `assert_err_eq!` invocation (any
argument form) and panics exactly when it panics, with the same message; when
the inner assertion succeeds with the matched payload, the debug variant
evaluates to unit — the payload is discarded, not returned. -/
theorem C6_debug_mode_same_panics {E : Type} (inner : Outcome E) :
    (∀ m : String,
      debug_assert_err_eq true inner = Outcome.panicked m ↔ inner = Outcome.panicked m) ∧
    (∀ a : E, inner = Outcome.ret a → debug_assert_err_eq true inner = Outcome.ret ()) := by
  cases inner <;> simp [debug_assert_err_eq, discardValue]

/-- Witness for the amended C6 at the successful inner outcome `ret 1` and at
a panicking inner outcome. -/
theorem C6_witness :
    debug_assert_err_eq true (Outcome.ret (1 : Nat)) = Outcome.ret () ∧
    debug_assert_err_eq true (Outcome.panicked "boom" : Outcome Nat) =
      Outcome.panicked "boom" :=
  ⟨(C6_debug_mode_same_panics (Outcome.ret (1 : Nat))).2 1 rfl,
    ((C6_debug_mode_same_panics (Outcome.panicked "boom" : Outcome Nat)).1 "boom").2 rfl⟩

/-- C7: under a release build configuration (`debug_assertions` off),
`debug_assert_err_eq!` performs no check and never panics: it evaluates to
unit whatever the outcome of the forwarded assertion would have been. -/
theorem C7_release_mode_no_panic {E : Type} (inner : Outcome E) :
    debug_assert_err_eq false inner = Outcome.ret () := rfl

/-- C8: the trailing-comma call form of `assert_err_eq!` is behaviorally
identical to the two-argument form in both conditional-compilation
expansions: same value and same panic behaviour on every input. -/
theorem C8_trailing_comma_same {T E : Type} (eq : E → E → Bool)
    (fmtT : T → String) (fmtE : E → String) (cond : RustResult T E) (x : E) :
    assert_err_eq_trailing_v111 eq fmtT fmtE cond x =
      assert_err_eq_two_v111 eq fmtT fmtE cond x ∧
    assert_err_eq_trailing_pre111 eq fmtT fmtE cond x =
      assert_err_eq_two_pre111 eq fmtT fmtE cond x :=
  ⟨rfl, rfl⟩

/-- C9: with a custom message supplied, on an `Ok` outcome both expansions of
`assert_err_eq!` panic with the bespoke wrong-variant message followed by a
colon separator and the formatted custom message. -/
theorem C9_ok_custom_msg_colon {T E : Type} (eq : E → E → Bool)
    (fmtT : T → String) (fmtE : E → String) (t : T) (x : E) (msg : String) :
    assert_err_eq_msg_v111 eq fmtT fmtE (RustResult.Ok t) x msg =
      Outcome.panicked
        (("assertion failed, expected Err(..), got "
          ++ fmtResult fmtT fmtE (RustResult.Ok t)) ++ (": " ++ msg)) ∧
    assert_err_eq_msg_pre111 eq fmtT fmtE (RustResult.Ok t) x msg =
      Outcome.panicked
        (("assertion failed, expected Err(..), got "
          ++ fmtResult fmtT fmtE (RustResult.Ok t)) ++ (": " ++ msg)) ∧
    strContainsSub
      ("assertion failed, expected Err(..), got "
        ++ fmtResult fmtT fmtE (RustResult.Ok t) ++ ": " ++ msg) msg = true := by
  refine ⟨?_, ?_, ?_⟩
  · simp [assert_err_eq_msg_v111, strAppend_assoc]
  · simp [assert_err_eq_msg_pre111, strAppend_assoc]
  · exact strContainsSub_split_right
      ("assertion failed, expected Err(..), got "
        ++ fmtResult fmtT fmtE (RustResult.Ok t) ++ ": ") msg

/-- C10: the `cfg(rustc_1_11)` and `cfg(not(rustc_1_11))` expansions of
`assert_err_eq!` agree exactly on the two-argument and trailing-comma forms:
same value and same panic behaviour on every input. -/
theorem C10_expansions_agree_without_msg {T E : Type} (eq : E → E → Bool)
    (fmtT : T → String) (fmtE : E → String) (cond : RustResult T E) (x : E) :
    assert_err_eq_two_v111 eq fmtT fmtE cond x =
      assert_err_eq_two_pre111 eq fmtT fmtE cond x ∧
    assert_err_eq_trailing_v111 eq fmtT fmtE cond x =
      assert_err_eq_trailing_pre111 eq fmtT fmtE cond x := by
  cases cond <;> exact ⟨rfl, rfl⟩

end RustClaims
